import Mathlib

/-!
Verification development for the maubot-webhook plugin (src/plugin.py).

The development shallowly embeds the plugin's request pipeline:
configuration validation (`Config.do_update`, modeled by `config_validate`),
template loading and hot reload (`load_template`, `on_external_config_update`),
authentication, JSON extraction, template rendering and delivery
(`handle_request`).  Library calls made by the plugin (jinja2 template
compilation and rendering with the default `Undefined`, aiohttp
`BasicAuth.decode`, Python `str` methods and `base64.b64decode`) are embedded
by executable Lean functions that follow the documented behaviour of those
libraries; each such definition documents what it models.
-/

set_option linter.unusedVariables false

/-- Single-quote character as a string; used to build the exact Python error
message texts, which contain quoted values. -/
def apos : String := String.singleton (Char.ofNat 39)

/-- Model of Python `str.capitalize()`: first character upper-cased, all
remaining characters lower-cased (ASCII; the plugin only capitalizes
auth-scheme names). -/
def pythonCapitalize (s : String) : String :=
  match s.data with
  | [] => ""
  | c :: cs => ⟨c.toUpper :: cs.map Char.toLower⟩

/-- Helper for `pySplitOnce`: scan for the first separator, accumulating the
prefix in reverse. -/
def splitOnceAux (sep : Char) : List Char → List Char → List Char × Option (List Char)
  | acc, [] => (acc.reverse, none)
  | acc, c :: cs => if c = sep then (acc.reverse, some cs) else splitOnceAux sep (c :: acc) cs

/-- Model of Python `s.split(sep, 1)` for a one-character separator: the part
before the first separator, and (when a separator occurs) everything after it.
`none` in the second component means the separator does not occur, i.e. the
Python call returned a one-element list. -/
def pySplitOnce (s : String) (sep : Char) : String × Option String :=
  match splitOnceAux sep [] s.data with
  | (a, none) => (⟨a⟩, none)
  | (a, some b) => (⟨a⟩, some ⟨b⟩)

/-- Model of Python `s.partition(sep)` restricted to the two interesting
components (prefix, suffix); when the separator is absent the suffix is
empty, exactly as in `username, _, password = decoded.partition(":")`. -/
def pyPartition (s : String) (sep : Char) : String × String :=
  match pySplitOnce s sep with
  | (a, some b) => (a, b)
  | (a, none) => (a, "")

/-- Model of Python `str.strip()`. -/
def pyStrip (s : String) : String :=
  ⟨((s.data.dropWhile Char.isWhitespace).reverse.dropWhile Char.isWhitespace).reverse⟩

/-- Model of Python `str.lower()` (ASCII). -/
def pyLower (s : String) : String := ⟨s.data.map Char.toLower⟩

/-- Parsed JSON values, as produced by `await req.json()` (Python
`json.loads`).  Numbers are modeled as integers; none of the verified
properties depends on floating-point literals. -/
inductive Json where
  | null : Json
  | bool : Bool → Json
  | num : Int → Json
  | str : String → Json
  | arr : List Json → Json
  | obj : List (String × Json) → Json

/-- Model of Python `repr()` on values produced by `json.loads`, used when a
template prints a container value. -/
def Json.pyRepr : Json → String
  | .null => "None"
  | .bool true => "True"
  | .bool false => "False"
  | .num n => toString n
  | .str s => apos ++ s ++ apos
  | .arr xs => "[" ++ String.intercalate ", " (xs.attach.map (fun x => Json.pyRepr x.1)) ++ "]"
  | .obj kvs => "\x7b" ++ String.intercalate ", "
      (kvs.attach.map (fun kv => apos ++ kv.1.1 ++ apos ++ ": " ++ Json.pyRepr kv.1.2)) ++ "\x7d"
  decreasing_by
    · have h := x.2
      have := List.sizeOf_lt_of_mem h
      simp only [Json.arr.sizeOf_spec]
      omega
    · have h := kv.2
      have h1 := List.sizeOf_lt_of_mem h
      have h2 : sizeOf kv.1.2 < sizeOf kv.1 := by
        obtain ⟨a, b⟩ := kv.1
        simp only [Prod.mk.sizeOf_spec]
        omega
      simp only [Json.obj.sizeOf_spec]
      omega

/-- Model of Python `str()` on values produced by `json.loads`: a string
prints as itself, every other value prints as its `repr`. -/
def Json.pyStr : Json → String
  | .str s => s
  | j => j.pyRepr

/-- Model of Python `repr()` of a string-to-string dict (the `path` and
`query` template variables are such dicts). -/
def strDictRepr (kvs : List (String × String)) : String :=
  "\x7b" ++ String.intercalate ", "
    (kvs.map (fun kv => apos ++ kv.1 ++ apos ++ ": " ++ apos ++ kv.2 ++ apos)) ++ "\x7d"

/-- A value stored in the per-request template-variable dict
(`template_variables` in `handle_request`): the raw body string, the `path`
and `query` string dicts, or the parsed JSON body. -/
inductive Value where
  | str : String → Value
  | dict : List (String × String) → Value
  | json : Json → Value

/-- Output produced when a template prints a variable (jinja2 applies
`str()` to the value). -/
def Value.toOutput : Value → String
  | .str s => s
  | .dict kvs => strDictRepr kvs
  | .json j => j.pyStr

/-- A node of a parsed jinja2 template: literal text, a variable print
`\x7b\x7b name \x7d\x7d`, or an attribute print `\x7b\x7b name.field \x7d\x7d`.
These are the jinja2 constructs the plugin's templates use. -/
inductive Node where
  | text : String → Node
  | varRef : String → Node
  | attrRef : String → String → Node
deriving DecidableEq

/-- A jinja2 template source string as configured in `room` / `message`,
modeled by its parse result: either a sequence of nodes, or a syntactically
malformed source carrying the `jinja2.TemplateSyntaxError` message.  Parsing
itself is jinja2-library code and is taken as given. -/
inductive TemplateSrc where
  | parsed : List Node → TemplateSrc
  | malformed : String → TemplateSrc
deriving DecidableEq

/-- A compiled `jinja2.Template`.  By construction it only ever holds a
successfully parsed node list, mirroring that `jinja2.Template(...)` raises
on malformed sources instead of returning a broken object. -/
structure Template where
  nodes : List Node
deriving DecidableEq

/-- Model of the `jinja2.Template(source)` constructor: succeeds on a
well-formed source and raises `TemplateSyntaxError` (the `.error` case) on a
malformed one. -/
def jinjaCompile : TemplateSrc → Except String Template
  | .parsed ns => .ok ⟨ns⟩
  | .malformed msg => .error msg

/-- The per-request template variable dict. -/
abbrev Vars := List (String × Value)

/-- Dict lookup in the template-variable dict (keys are unique, so
first-match lookup is Python dict lookup). -/
def varsLookup : Vars → String → Option Value
  | [], _ => none
  | (k, v) :: rest, n => if k = n then some v else varsLookup rest n

/-- Model of jinja2 `Environment.getattr(value, field)` followed by output
conversion, for a *defined* base value: dict-like values yield the entry when
present; a missing entry yields jinja2's default `Undefined`, which prints as
the empty string; non-container values likewise yield `Undefined`.  (Python
method attributes of `str`/`dict` are not modeled; the plugin's documented
variables are data only.) -/
def getattrOutput : Value → String → String
  | .str _, _ => ""
  | .dict kvs, f => (kvs.lookup f).getD ""
  | .json (.obj kvs), f =>
    match kvs.lookup f with
    | some jv => jv.pyStr
    | none => ""
  | .json _, _ => ""

/-- Rendering of a single template node under jinja2's default `Undefined`:
printing an absent top-level variable yields the empty string; an attribute
access on an absent top-level variable raises
`jinja2.exceptions.UndefinedError` with the message
`'name' is undefined`. -/
def renderNode (vars : Vars) : Node → Except String String
  | .text s => .ok s
  | .varRef n => .ok (((varsLookup vars n).map Value.toOutput).getD "")
  | .attrRef n f =>
    match varsLookup vars n with
    | none => .error (apos ++ n ++ apos ++ " is undefined")
    | some v => .ok (getattrOutput v f)

/-- Rendering of a node sequence: concatenation of the node outputs, failing
with the first `UndefinedError`. -/
def renderNodes (vars : Vars) : List Node → Except String String
  | [] => .ok ""
  | n :: rest =>
    match renderNode vars n with
    | .error e => .error e
    | .ok s =>
      match renderNodes vars rest with
      | .error e => .error e
      | .ok srest => .ok (s ++ srest)

/-- Model of `jinja2.Template.render(variables)`. -/
def jinjaRender (t : Template) (vars : Vars) : Except String String :=
  renderNodes vars t.nodes

/-- The plugin configuration after `Config.do_update` copied the values
(src/plugin.py lines 47-55).  `room` and `message` are the template source
strings, carried as their parse results. -/
structure Config where
  path : String
  method : String
  room : TemplateSrc
  message : TemplateSrc
  message_format : String
  auth_type : Option String
  auth_token : Option String
  force_json : Bool
  ignore_empty_messages : Bool
deriving DecidableEq

/-- The two template keys the plugin uses for `self.templates` and
`self.config` ("room" and "message"); the source indexes both dicts by these
string keys. -/
inductive TKey where
  | room
  | message
deriving DecidableEq

/-- The string key as it appears in the source. -/
def TKey.name : TKey → String
  | .room => "room"
  | .message => "message"

/-- `self.config[key]` for a template key. -/
def Config.getTemplate (cfg : Config) : TKey → TemplateSrc
  | .room => cfg.room
  | .message => cfg.message

/-- The `self.templates` dict.  `render_template`'s comment (src/plugin.py
lines 124-128) states both keys are always present, so the dict is modeled
as a total structure. -/
structure Templates where
  room : Template
  message : Template
deriving DecidableEq

/-- `self.templates[key]` read. -/
def Templates.get (t : Templates) : TKey → Template
  | .room => t.room
  | .message => t.message

/-- `self.templates[key] = tmpl` write. -/
def Templates.set (t : Templates) : TKey → Template → Templates
  | .room, tp => { t with room := tp }
  | .message, tp => { t with message := tp }

/-- `WebhookPlugin.load_template` (src/plugin.py lines 114-120):
`self.templates[key] = jinja2.Template(self.config[key])`, re-raising a
`TemplateSyntaxError` as `ValueError("Error in {key} template: {e}")`.  The
right-hand side is evaluated before the dict entry is assigned, so on a
compile failure the returned dict is the input, untouched; the second
component is the raised exception, if any. -/
def load_template (cfg : Config) (key : TKey) (tmpls : Templates) : Templates × Option String :=
  match jinjaCompile (cfg.getTemplate key) with
  | .ok t => (tmpls.set key t, none)
  | .error e => (tmpls, some ("Error in " ++ key.name ++ " template: " ++ e))

/-- Mutable plugin state touched by the hot-reload path: the proxied config,
the compiled templates, and the routes registered on `self.webapp`
(method, path pairs). -/
structure PluginState where
  config : Config
  templates : Templates
  routes : List (String × String)
deriving DecidableEq

/-- Observable route-table operations performed during a hot reload:
`self.webapp.clear()` and `self.webapp.add_route(method, path, ...)`. -/
inductive RouteAction where
  | cleared
  | registered : String → String → RouteAction
deriving DecidableEq

/-- `WebhookPlugin.register_webhook` (src/plugin.py lines 135-138): adds the
configured route to the web app. -/
def register_webhook (cfg : Config) (routes : List (String × String)) : List (String × String) :=
  routes ++ [(cfg.method, cfg.path)]

/-- The `message` half of `on_external_config_update` (src/plugin.py lines
106-107): reload the message template when its source changed.
`reload_template` (lines 109-112) only adds logging around
`load_template`. -/
def reloadMessagePart (oldCfg : Config) (st : PluginState) (acts : List RouteAction) :
    PluginState × List RouteAction × Option String :=
  if oldCfg.message ≠ st.config.message then
    match load_template st.config .message st.templates with
    | (t, err) => ({ st with templates := t }, acts, err)
  else (st, acts, none)

/-- `WebhookPlugin.on_external_config_update` (src/plugin.py lines 94-107).
The old field values are read from the current config, `super()` swaps in the
new config, then: route cleared and re-registered only when path or method
changed; each template reloaded only when its source changed.  An exception
raised by a reload propagates (nothing catches it), aborting the rest of the
update; the third component carries that exception. -/
def on_external_config_update (newCfg : Config) (st : PluginState) :
    PluginState × List RouteAction × Option String :=
  let oldCfg := st.config
  let st1 : PluginState := { st with config := newCfg }
  let step :=
    if oldCfg.path ≠ newCfg.path ∨ oldCfg.method ≠ newCfg.method then
      (({ st1 with routes := register_webhook newCfg [] } : PluginState),
        [RouteAction.cleared, RouteAction.registered newCfg.method newCfg.path])
    else (st1, ([] : List RouteAction))
  match step with
  | (st2, acts) =>
    if oldCfg.room ≠ newCfg.room then
      match load_template newCfg .room st2.templates with
      | (t, some e) => ({ st2 with templates := t }, acts, some e)
      | (t, none) => reloadMessagePart oldCfg { st2 with templates := t } acts
    else reloadMessagePart oldCfg st2 acts

/-- The valid `message_format` values (src/plugin.py line 61). -/
def valid_message_formats : List String := ["markdown", "plaintext", "html"]

/-- The valid `auth_type` values (src/plugin.py line 68). -/
def valid_auth_types : List String := ["Basic", "Bearer"]

/-- The validation section of `Config.do_update` (src/plugin.py lines 57-80):
`message_format` must be one of the valid formats; when `auth_type` is set it
must capitalize to `Basic` or `Bearer`, `auth_token` must be set, and for
`Basic` the token must contain a colon.  A raised `ValueError` is the
`.error` case. -/
def config_validate (message_format : String) (auth_type auth_token : Option String) :
    Except String Unit :=
  if ¬ valid_message_formats.contains message_format then
    .error ("Invalid message_format " ++ apos ++ message_format ++ apos ++
      " specified! Must be one of: markdown, plaintext, html")
  else
    match auth_type with
    | none => .ok ()
    | some a0 =>
      let a := pythonCapitalize a0
      if ¬ valid_auth_types.contains a then
        .error ("Invalid auth_type " ++ apos ++ a ++ apos ++
          " specified! Must be one of: Basic, Bearer")
      else
        match auth_token with
        | none => .error "No auth_token specified!"
        | some tok =>
          if a = "Basic" ∧ ¬ tok.data.contains ':' then
            .error ("Invalid auth_token " ++ apos ++ tok ++ apos ++
              " specified! For HTTP basic auth, it must contain a username and a password, " ++
              "separated by a colon (<username>:<password>).")
          else .ok ()

/-- `WebhookPlugin.start` (src/plugin.py lines 140-145): validate the config
(`load_and_update` runs `do_update`), load both templates, then register the
webhook route.  Any raised error aborts startup before the route is
registered, so the plugin refuses to start. -/
def start (cfg : Config) : Except String (Templates × List (String × String)) :=
  match config_validate cfg.message_format cfg.auth_type cfg.auth_token with
  | .error e => .error e
  | .ok _ =>
    match jinjaCompile cfg.room with
    | .error e => .error ("Error in room template: " ++ e)
    | .ok tr =>
      match jinjaCompile cfg.message with
      | .error e => .error ("Error in message template: " ++ e)
      | .ok tm => .ok (⟨tr, tm⟩, [(cfg.method, cfg.path)])

/-- An HTTP response as built by the handler (`aiohttp.web.Response`): status
(default 200), body text (default empty) and the optional `WWW-Authenticate`
header, the only header the plugin ever sets. -/
structure Response where
  status : Nat := 200
  text : String := ""
  www_authenticate : Option String := none
deriving DecidableEq

/-- `Response()` with all defaults, the success response. -/
def emptyResponse : Response := {}

/-- The `unauthorized(text)` closure in `handle_request` (src/plugin.py lines
151-155): 401 with the capitalized configured auth type as the
`WWW-Authenticate` header. -/
def unauthorizedResp (scheme text : String) : Response :=
  { status := 401, text := text, www_authenticate := some scheme }

/-- The response aiohttp produces for an exception the handler does not
catch (reachable only from the invalid state auth_type = Basic with
auth_token unset, where `config_auth_token.split` raises
`AttributeError`). -/
def internalServerError : Response := { status := 500, text := "500 Internal Server Error" }

/-- An `aiohttp.BasicAuth` credential pair; the `encoding` field is `latin1`
on both sides of every comparison the plugin performs and is omitted. -/
structure BasicAuthCred where
  login : String
  password : String
deriving DecidableEq

/-- Index of a character in the base64 alphabet. -/
def b64Index (c : Char) : Option Nat :=
  if 'A' ≤ c ∧ c ≤ 'Z' then some (c.toNat - 65)
  else if 'a' ≤ c ∧ c ≤ 'z' then some (c.toNat - 97 + 26)
  else if '0' ≤ c ∧ c ≤ '9' then some (c.toNat - 48 + 52)
  else if c = '+' then some 62
  else if c = '/' then some 63
  else none

/-- Base64 value of a character (0 for non-alphabet characters, which are
filtered out before use). -/
def b64Val (c : Char) : Nat := (b64Index c).getD 0

/-- Decode filtered base64 data characters, four at a time, into bytes. -/
def b64DecodeGroups : List Char → List Nat
  | c1 :: c2 :: c3 :: c4 :: rest =>
    let n := b64Val c1 * 262144 + b64Val c2 * 4096 + b64Val c3 * 64 + b64Val c4
    (n / 65536) :: (n / 256 % 256) :: (n % 256) :: b64DecodeGroups rest
  | [c1, c2] => [(b64Val c1 * 4 + b64Val c2 / 16) % 256]
  | [c1, c2, c3] =>
    let n := b64Val c1 * 1024 + b64Val c2 * 16 + b64Val c3 / 4
    [n / 256 % 256, n % 256]
  | _ => []

/-- Model of `base64.b64decode(s.encode("ascii"))` as called by
`aiohttp.BasicAuth.decode`: non-ASCII input raises `UnicodeEncodeError` (a
`ValueError`), non-alphabet characters are discarded, the padded length must
be a multiple of four, and the data is decoded in 6-bit groups.  Exotic
malformed paddings may differ from CPython's `binascii` in the exact branch
taken; every such input is an error case both here and in CPython, and no
verified property depends on which. -/
def pyB64Decode (s : String) : Except String (List Nat) :=
  if s.data.any (fun c => 128 ≤ c.toNat) then
    .error "ascii codec cannot encode non-ASCII input"
  else
    let cs := s.data.filter (fun c => (b64Index c).isSome || c == '=')
    let dataChars := cs.takeWhile (fun c => c != '=')
    if cs.length % 4 ≠ 0 then .error "Incorrect padding"
    else if dataChars.length % 4 = 1 then .error "Invalid base64-encoded string"
    else .ok (b64DecodeGroups dataChars)

/-- Model of `bytes.decode("latin1")`: each byte becomes the character with
that code point; never fails. -/
def latin1Decode (bs : List Nat) : String := ⟨bs.map Char.ofNat⟩

/-- Model of `aiohttp.BasicAuth.decode(auth_header)`: split at the first
space, require the scheme to be `basic` case-insensitively, base64-decode
the credential and split it at the first colon into login and password.  A
raised `ValueError` is the `.error` case. -/
def basicAuthDecode (auth_header : String) : Except String BasicAuthCred :=
  match pySplitOnce auth_header ' ' with
  | (_, none) => .error "Could not parse authorization header."
  | (scheme, some to_decode) =>
    if ¬ pyLower (pyStrip scheme) = "basic" then
      .error ("Unknown authorization method " ++ scheme)
    else
      match pyB64Decode to_decode with
      | .error e => .error e
      | .ok bs =>
        let up := pyPartition (latin1Decode bs) ':'
        .ok ⟨up.1, up.2⟩

/-- `BasicAuth(*config_auth_token.split(":", 1))` (src/plugin.py line 175):
the configured token split at its first colon; with no colon the password
defaults to the empty string. -/
def configBasicAuth (cfgTok : String) : BasicAuthCred :=
  match pySplitOnce cfgTok ':' with
  | (u, some p) => ⟨u, p⟩
  | (u, none) => ⟨u, ""⟩

/-- An inbound HTTP request as observed by `handle_request`: the
`Authorization` header, the route captures (`req.match_info`), the query
dict (`dict(req.rel_url.query)`, duplicate keys already collapsed
last-value-wins), the body text, the result of `await req.json()`
(`json.loads` on the body; library code, carried as its outcome), and
`req.content_type` (the lower-cased mime type of the Content-Type
header). -/
structure Request where
  authorization : Option String
  match_info : List (String × String)
  query : List (String × String)
  body : String
  bodyJson : Except String Json
  content_type : String

/-- A call made to the chat client (`self.client`): `send_markdown(room,
message)`, `send_text(room, None, html=message)` or `send_text(room,
message)`. -/
inductive SendCall where
  | markdown : String → String → SendCall
  | textHtml : String → String → SendCall
  | plainText : String → String → SendCall
deriving DecidableEq

/-- Observable side effects of one request, in order: a `req.json()` parse
attempt, a `render_template` call for a key, a chat-client send call. -/
inductive Event where
  | jsonParseAttempt
  | renderAttempt : TKey → Event
  | sendAttempt : SendCall → Event
deriving DecidableEq

/-- The authentication section of `handle_request` (src/plugin.py lines
149-179).  `none` means the request passed (auth disabled, or the
credentials are valid); `some r` is the rejection response returned
immediately.  The configured type is capitalized before any header check, so
every `unauthorized(...)` response advertises the capitalized scheme. -/
def authResult (cfg : Config) (req : Request) : Option Response :=
  match cfg.auth_type with
  | none => none
  | some a =>
    let cat := pythonCapitalize a
    match req.authorization with
    | none => some (unauthorizedResp cat "Missing authorization header")
    | some auth_header =>
      match pySplitOnce auth_header ' ' with
      | (_, none) => some (unauthorizedResp cat "Invalid authorization header format")
      | (scheme, some cred) =>
        let given := pythonCapitalize scheme
        if ¬ given = cat then
          some (unauthorizedResp cat ("Unsupported authorization type: " ++ given))
        else if given = "Basic" then
          match basicAuthDecode auth_header with
          | .error e => some (unauthorizedResp cat ("Invalid authorization header format: " ++ e))
          | .ok ba =>
            match cfg.auth_token with
            | none => some internalServerError
            | some cfgTok =>
              if ¬ configBasicAuth cfgTok = ba then
                some (unauthorizedResp cat "Invalid username or password")
              else none
        else if given = "Bearer" then
          match cfg.auth_token with
          | none => some (unauthorizedResp cat "Invalid authorization token")
          | some cfgTok =>
            if ¬ cred = cfgTok then some (unauthorizedResp cat "Invalid authorization token")
            else none
        else none

/-- `WebhookPlugin.render_template` (src/plugin.py lines 122-133): render the
compiled template for the key; a `jinja2.UndefinedError` becomes a 500
response whose body names the key and the error. -/
def render_template (tmpls : Templates) (key : TKey) (vars : Vars) : String ⊕ Response :=
  match jinjaRender (tmpls.get key) vars with
  | .ok s => .inl s
  | .error e =>
    .inr { status := 500, text := "Undefined variables in " ++ key.name ++ " template: " ++ e }

/-- The `template_variables` dict built in `handle_request` (src/plugin.py
lines 181-185) before the optional JSON entry is added. -/
def buildVars (req : Request) : Vars :=
  [("path", Value.dict req.match_info), ("query", Value.dict req.query),
    ("body", Value.str req.body)]

/-- The JSON-parsing condition of `handle_request` (src/plugin.py line 187):
content type is `application/json`, or `force_json` is configured. -/
def jsonRequested (cfg : Config) (req : Request) : Bool :=
  req.content_type == "application/json" || cfg.force_json

/-- The tail of `handle_request` after the variables are built (src/plugin.py
lines 195-223): render `room`, then `message` (either failure returns its 500
response), apply the empty-message policy, dispatch on `message_format` to
the chat client, and convert a raised delivery error to a 500 naming message
and room. -/
def renderAndSend (cfg : Config) (tmpls : Templates) (client : SendCall → Except String Unit)
    (vars : Vars) (evts : List Event) : Response × List Event :=
  match render_template tmpls .room vars with
  | .inr resp => (resp, evts ++ [Event.renderAttempt .room])
  | .inl room =>
    match render_template tmpls .message vars with
    | .inr resp => (resp, evts ++ [Event.renderAttempt .room, Event.renderAttempt .message])
    | .inl message =>
      let evts2 := evts ++ [Event.renderAttempt .room, Event.renderAttempt .message]
      if cfg.ignore_empty_messages ∧ message = "" then (emptyResponse, evts2)
      else
        let call : SendCall :=
          if cfg.message_format = "markdown" then SendCall.markdown room message
          else if cfg.message_format = "html" then SendCall.textHtml room message
          else SendCall.plainText room message
        let resp : Response :=
          match client call with
          | .error e =>
            { status := 500,
              text := "Failed to send message " ++ apos ++ message ++ apos ++ " to room " ++
                room ++ ": " ++ e }
          | .ok _ => emptyResponse
        (resp, evts2 ++ [Event.sendAttempt call])

/-- `WebhookPlugin.handle_request` (src/plugin.py lines 147-223): the full
request pipeline.  An authentication rejection returns immediately (no parse,
render or send happens); then the body is parsed as JSON exactly when
`jsonRequested`, a parse failure returning 400; then rendering and delivery.
The second component is the ordered trace of observable effects. -/
def handle_request (cfg : Config) (tmpls : Templates) (client : SendCall → Except String Unit)
    (req : Request) : Response × List Event :=
  match authResult cfg req with
  | some resp => (resp, [])
  | none =>
    if jsonRequested cfg req then
      match req.bodyJson with
      | .error e =>
        ({ status := 400, text := "Failed to parse JSON: " ++ e }, [Event.jsonParseAttempt])
      | .ok j =>
        renderAndSend cfg tmpls client (buildVars req ++ [("json", Value.json j)])
          [Event.jsonParseAttempt]
    else renderAndSend cfg tmpls client (buildVars req) []

/-- The variable dict a request renders with: `template_variables` plus the
`json` entry when JSON parsing was requested and succeeded. -/
def handlerVars (cfg : Config) (req : Request) : Vars :=
  if jsonRequested cfg req then
    match req.bodyJson with
    | .ok j => buildVars req ++ [("json", Value.json j)]
    | .error _ => buildVars req
  else buildVars req

/-- Whether a handler run attempted to parse the body as JSON. -/
def jsonAttempted (out : Response × List Event) : Bool :=
  out.2.any (fun e => match e with | Event.jsonParseAttempt => true | _ => false)

/-- Whether a handler run invoked the chat client. -/
def sendHappened (out : Response × List Event) : Bool :=
  out.2.any (fun e => match e with | Event.sendAttempt _ => true | _ => false)

/-- A chat client whose send calls always succeed. -/
def clientOk : SendCall → Except String Unit := fun _ => .ok ()

/-- The JSON stage of a request does not fail: whenever parsing is requested,
the body parses. -/
def jsonStageOk (cfg : Config) (req : Request) : Prop :=
  jsonRequested cfg req = true → ∃ j, req.bodyJson = Except.ok j

/-- Scenario-C-like configuration: `force_json` on, message template
printing `json.text`. -/
def cfgC1 : Config :=
  { path := "/h", method := "POST",
    room := TemplateSrc.parsed [Node.text "!r:server"],
    message := TemplateSrc.parsed [Node.attrRef "json" "text"],
    message_format := "plaintext", auth_type := none, auth_token := none,
    force_json := true, ignore_empty_messages := false }

/-- Compiled templates of `cfgC1`. -/
def tmplsC1 : Templates := ⟨⟨[Node.text "!r:server"]⟩, ⟨[Node.attrRef "json" "text"]⟩⟩

/-- A request whose body is the JSON object `\x7b\x7d`: it parses, but lacks
the `text` field the message template reads. -/
def reqC1 : Request :=
  { authorization := none, match_info := [], query := [], body := "\x7b\x7d",
    bodyJson := Except.ok (Json.obj []), content_type := "application/json" }

/-- Like `cfgC1` but with JSON parsing not requested, so the `json` variable
is absent from the namespace altogether. -/
def cfgC1w : Config := { cfgC1 with force_json := false }

/-- A plain-text request: no JSON is parsed. -/
def reqC1w : Request :=
  { reqC1 with
    content_type := "text/plain"
    bodyJson := Except.error "x" }

/-- Bearer configuration whose token itself contains a space. -/
def cfgC2 : Config :=
  { cfgC1 with
    auth_type := some "Bearer"
    auth_token := some "a b" }

/-- A request whose `Authorization` header consists of three
space-separated tokens. -/
def reqC2 : Request := { reqC1 with authorization := some "Bearer a b" }

/-- A request whose `Authorization` header contains no space at all. -/
def reqC2w : Request := { reqC1 with authorization := some "Bearer" }

/-- A configuration with a Basic auth token containing two colons. -/
def cfgC3 : Config :=
  { path := "/h", method := "POST",
    room := TemplateSrc.parsed [Node.text "r"],
    message := TemplateSrc.parsed [Node.text "m"],
    message_format := "plaintext", auth_type := some "Basic", auth_token := some "a:b:c",
    force_json := false, ignore_empty_messages := false }

/-- Bearer configuration with token `secret`. -/
def cfgC5 : Config :=
  { cfgC1 with
    auth_type := some "Bearer"
    auth_token := some "secret" }

/-- A request with both bad credentials and a malformed JSON body. -/
def reqC5a : Request :=
  { reqC1 with
    authorization := some "Bearer wrong"
    bodyJson := Except.error "boom" }

/-- A request with good credentials and a malformed JSON body. -/
def reqC5b : Request :=
  { reqC1 with
    authorization := some "Bearer secret"
    bodyJson := Except.error "boom" }

/-- A request with a JSON content type, a malformed body and no
`Authorization` header. -/
def reqC6 : Request := reqC5a

/-- Configuration without authentication but with `force_json`. -/
def cfgC6w : Config := cfgC1

/-- Scenario-D configuration: `ignore_empty_messages` on. -/
def cfgC8 : Config := { cfgC1 with ignore_empty_messages := true }

/-- Scenario-D request: body `\x7b"text":""\x7d`, so the message renders
empty. -/
def reqC8 : Request :=
  { reqC1 with
    body := "\x7b\x22text\x22:\x22\x22\x7d"
    bodyJson := Except.ok (Json.obj [("text", Json.str "")]) }

/-- A baseline plugin state used by the hot-reload witnesses. -/
def stW : PluginState :=
  { config := cfgC3, templates := ⟨⟨[Node.text "r"]⟩, ⟨[Node.text "m"]⟩⟩,
    routes := [("POST", "/h")] }

/-- A reloaded configuration with both template sources changed and the new
room source syntactically broken. -/
def cfgC10 : Config :=
  { cfgC3 with
    room := TemplateSrc.malformed "unexpected end of template"
    message := TemplateSrc.parsed [Node.text "m2"] }

/-- A reloaded configuration whose new message source is syntactically
broken. -/
def cfgC4 : Config := { cfgC3 with message := TemplateSrc.malformed "unexpected end of template" }

theorem splitOnceAux_no_sep (sep : Char) (l acc : List Char) (h : l.contains sep = false) :
    splitOnceAux sep acc l = (acc.reverse ++ l, none) := by
  induction l generalizing acc with
  | nil => simp [splitOnceAux]
  | cons c cs ih =>
    simp only [List.contains_cons, Bool.or_eq_false_iff, beq_eq_false_iff_ne] at h
    simp only [splitOnceAux, if_neg (Ne.symm h.1), ih _ h.2]
    simp

theorem splitOnceAux_with_sep (sep : Char) (l1 l2 acc : List Char)
    (h : l1.contains sep = false) :
    splitOnceAux sep acc (l1 ++ sep :: l2) = (acc.reverse ++ l1, some l2) := by
  induction l1 generalizing acc with
  | nil => simp [splitOnceAux]
  | cons c cs ih =>
    simp only [List.contains_cons, Bool.or_eq_false_iff, beq_eq_false_iff_ne] at h
    simp only [List.cons_append, splitOnceAux, if_neg (Ne.symm h.1)]
    simpa using ih (c :: acc) h.2

theorem pySplitOnce_no_sep (s : String) (sep : Char) (h : s.data.contains sep = false) :
    pySplitOnce s sep = (s, none) := by
  unfold pySplitOnce
  rw [splitOnceAux_no_sep sep s.data [] h]
  simp

theorem pySplitOnce_with_sep (s t : String) (sep : Char) (h : s.data.contains sep = false) :
    pySplitOnce (s ++ String.singleton sep ++ t) sep = (s, some t) := by
  unfold pySplitOnce
  have hd : (s ++ String.singleton sep ++ t).data = s.data ++ sep :: t.data := by
    simp [String.data_append, String.singleton]
  rw [hd, splitOnceAux_with_sep sep s.data t.data [] h]
  simp

/-- C9: when neither `path` nor `method` changed, a configuration hot-reload
performs no route operation at all: `webapp.clear()` is not called, no route
is re-registered, and the registered route table is exactly what it was, so
re-loading an unchanged configuration never duplicates routes. -/
theorem c9_reload_route_noop (newCfg : Config) (st : PluginState)
    (hp : st.config.path = newCfg.path) (hm : st.config.method = newCfg.method) :
    (on_external_config_update newCfg st).2.1 = [] ∧
    (on_external_config_update newCfg st).1.routes = st.routes := by
  unfold on_external_config_update
  simp only [hp, hm, ne_eq, not_true_eq_false, or_self, if_false, reloadMessagePart,
    load_template]
  constructor <;> (repeat' split) <;> simp

/-- C9 witness: reloading `stW`'s configuration with only the auth token
changed touches no route. -/
theorem c9_witness :
    (on_external_config_update { cfgC3 with auth_token := some "x:y" } stW).2.1 = [] ∧
    (on_external_config_update { cfgC3 with auth_token := some "x:y" } stW).1.routes =
      stW.routes :=
  c9_reload_route_noop { cfgC3 with auth_token := some "x:y" } stW rfl rfl

/-- C10: during a hot-reload in which both template sources changed, a
syntax error in the new room template aborts the update before the message
template is recompiled: the raised error propagates and the whole compiled
template table — in particular the message slot, whose source did change —
still holds the old compiled templates. -/
theorem c10_room_failure_aborts_message_reload (newCfg : Config) (st : PluginState) (e : String)
    (hroom : st.config.room ≠ newCfg.room) (hmsg : st.config.message ≠ newCfg.message)
    (hcompile : jinjaCompile newCfg.room = Except.error e) :
    (on_external_config_update newCfg st).1.templates = st.templates ∧
    (on_external_config_update newCfg st).2.2 = some ("Error in room template: " ++ e) := by
  unfold on_external_config_update
  simp only [ne_eq, hroom, not_false_eq_true, if_true, load_template, Config.getTemplate,
    hcompile, TKey.name]
  split <;> simp

/-- C10 witness: reloading `stW` with `cfgC10` (both sources changed, new
room source malformed) leaves both compiled templates untouched and raises
the room error. -/
theorem c10_witness :
    (on_external_config_update cfgC10 stW).1.templates = stW.templates ∧
    (on_external_config_update cfgC10 stW).2.2 =
      some ("Error in room template: " ++ "unexpected end of template") :=
  c10_room_failure_aborts_message_reload cfgC10 stW "unexpected end of template"
    (by decide) (by decide) rfl

/-- C4: the compiled-template slot of a key survives any hot-reload whose
recompilation of that key's source fails: after `on_external_config_update`,
the slot still holds the previously working compiled template (slots only
ever hold successfully compiled templates, by construction of `Template`),
and rendering through `render_template` behaves exactly as before the
reload. -/
theorem c4_failed_reload_keeps_old_template (newCfg : Config) (st : PluginState) (key : TKey)
    (e : String) (hcompile : jinjaCompile (newCfg.getTemplate key) = Except.error e) :
    (on_external_config_update newCfg st).1.templates.get key = st.templates.get key ∧
    ∀ vars, render_template (on_external_config_update newCfg st).1.templates key vars =
      render_template st.templates key vars := by
  have hkey : (on_external_config_update newCfg st).1.templates.get key =
      st.templates.get key := by
    cases key <;>
      simp only [Config.getTemplate] at hcompile <;>
      by_cases hpm : (¬st.config.path = newCfg.path ∨ ¬st.config.method = newCfg.method) <;>
      by_cases hroom : st.config.room = newCfg.room <;>
      by_cases hmsg : st.config.message = newCfg.message <;>
      rcases hcr : jinjaCompile newCfg.room with tr | er <;>
      rcases hcm : jinjaCompile newCfg.message with tm | em <;>
      simp_all [on_external_config_update, reloadMessagePart, load_template, Templates.get,
        Templates.set, Config.getTemplate]
  refine ⟨hkey, fun vars => ?_⟩
  unfold render_template
  rw [hkey]

/-- C4 witness: reloading `stW` with `cfgC4`, whose new message source is
malformed, keeps the old compiled message template in the slot. -/
theorem c4_witness :
    jinjaCompile (cfgC4.getTemplate TKey.message) =
      Except.error "unexpected end of template" ∧
    (on_external_config_update cfgC4 stW).1.templates.get TKey.message =
      stW.templates.get TKey.message :=
  ⟨rfl, (c4_failed_reload_keeps_old_template cfgC4 stW TKey.message
    "unexpected end of template" rfl).1⟩

theorem authResult_reject_shape (cfg : Config) (req : Request) (a tok : String)
    (ha : cfg.auth_type = some a) (ht : cfg.auth_token = some tok) (r : Response)
    (h : authResult cfg req = some r) :
    ∃ txt, r = unauthorizedResp (pythonCapitalize a) txt := by
  simp only [authResult, ha, ht] at h
  repeat' split at h
  all_goals first
    | exact ⟨_, (Option.some.inj h).symm⟩
    | cases h

theorem config_validate_ok_token_some (mf a : String) (atk : Option String)
    (h : config_validate mf (some a) atk = Except.ok ()) : ∃ tok, atk = some tok := by
  rcases atk with _ | tok
  · exfalso
    simp only [config_validate] at h
    repeat' split at h <;> simp_all
  · exact ⟨tok, rfl⟩

/-- C5: the pipeline is ordered and terminal at the first failure.  Under a
validated configuration, a request rejected by the configured authentication
gets exactly the 401 rejection response with an empty effect trace: the body
is never parsed as JSON and no template is rendered (hence a request with
both bad credentials and a malformed body yields 401, not 400).  An
authenticated request whose JSON parse fails gets exactly the 400 response,
with the parse attempt as its only effect: no template is rendered. -/
theorem c5_pipeline_terminal (cfg : Config) (tmpls : Templates)
    (client : SendCall → Except String Unit) (req : Request) :
    (config_validate cfg.message_format cfg.auth_type cfg.auth_token = Except.ok () →
      ∀ r, authResult cfg req = some r →
        handle_request cfg tmpls client req = (r, []) ∧ r.status = 401) ∧
    (authResult cfg req = none → ∀ e, req.bodyJson = Except.error e →
      jsonRequested cfg req = true →
      handle_request cfg tmpls client req =
        ({ status := 400, text := "Failed to parse JSON: " ++ e }, [Event.jsonParseAttempt])) := by
  constructor
  · intro hv r h
    have h401 : r.status = 401 := by
      rcases ha : cfg.auth_type with _ | a
      · rw [authResult, ha] at h
        cases h
      · obtain ⟨tok, ht⟩ := config_validate_ok_token_some _ _ _ (ha ▸ hv)
        obtain ⟨txt, rfl⟩ := authResult_reject_shape cfg req a tok ha ht r h
        rfl
    refine ⟨?_, h401⟩
    unfold handle_request
    rw [h]
  · intro hnone e he hreq
    unfold handle_request
    rw [hnone, if_pos hreq, he]

/-- C5 witness: with Bearer auth configured and token `secret`, the request
with a wrong token and a malformed JSON body yields the 401 rejection with
no effects, and the request with the right token and the same malformed body
yields the 400 parse failure. -/
theorem c5_witness :
    (handle_request cfgC5 tmplsC1 clientOk reqC5a =
      (unauthorizedResp "Bearer" "Invalid authorization token", []) ∧
      (unauthorizedResp "Bearer" "Invalid authorization token").status = 401) ∧
    handle_request cfgC5 tmplsC1 clientOk reqC5b =
      ({ status := 400, text := "Failed to parse JSON: " ++ "boom" }, [Event.jsonParseAttempt]) :=
  ⟨(c5_pipeline_terminal cfgC5 tmplsC1 clientOk reqC5a).1 rfl _ rfl,
    (c5_pipeline_terminal cfgC5 tmplsC1 clientOk reqC5b).2 rfl "boom" rfl rfl⟩

/-- C7: with an auth type configured, a request without an `Authorization`
header gets exactly HTTP 401 with body "Missing authorization header" and a
`WWW-Authenticate` header carrying the configured scheme name, and every
other 401 authentication rejection carries that same `WWW-Authenticate`
header.  The scheme name is the canonical (capitalized) form of the
configured value; on the canonical values `Basic` / `Bearer` of the spec's
`authType` domain, capitalization is the identity, so the header equals the
configured value itself. -/
theorem c7_www_authenticate (cfg : Config) (tmpls : Templates)
    (client : SendCall → Except String Unit) (req : Request) (a : String)
    (ha : cfg.auth_type = some a) :
    (req.authorization = none →
      handle_request cfg tmpls client req =
        (unauthorizedResp (pythonCapitalize a) "Missing authorization header", [])) ∧
    (∀ r, authResult cfg req = some r → r.status = 401 →
      r.www_authenticate = some (pythonCapitalize a)) ∧
    ((a = "Basic" ∨ a = "Bearer") → pythonCapitalize a = a) := by
  refine ⟨?_, ?_, ?_⟩
  · intro hnone
    simp [handle_request, authResult, ha, hnone]
  · intro r h h401
    simp only [authResult, ha] at h
    repeat' split at h <;> try simp_all [unauthorizedResp, internalServerError]
    all_goals (try obtain ⟨-, h⟩ := h)
    all_goals (try obtain ⟨-, h⟩ := h)
    all_goals (try subst h)
    all_goals simp_all
  · rintro (rfl | rfl) <;> decide

/-- C7 witness: with Bearer configured, the header-less request `reqC1` gets
401 "Missing authorization header" with `WWW-Authenticate: Bearer`, and that
scheme equals the configured value. -/
theorem c7_witness :
    handle_request cfgC5 tmplsC1 clientOk reqC1 =
      (unauthorizedResp (pythonCapitalize "Bearer") "Missing authorization header", []) ∧
    pythonCapitalize "Bearer" = "Bearer" :=
  ⟨(c7_www_authenticate cfgC5 tmplsC1 clientOk reqC1 "Bearer" rfl).1 rfl,
    (c7_www_authenticate cfgC5 tmplsC1 clientOk reqC1 "Bearer" rfl).2.2 (Or.inr rfl)⟩

theorem handle_request_renders (cfg : Config) (tmpls : Templates)
    (client : SendCall → Except String Unit) (req : Request)
    (hauth : authResult cfg req = none) (hjson : jsonStageOk cfg req) :
    handle_request cfg tmpls client req =
      renderAndSend cfg tmpls client (handlerVars cfg req)
        (if jsonRequested cfg req then [Event.jsonParseAttempt] else []) := by
  unfold handle_request handlerVars
  rw [hauth]
  by_cases hjr : jsonRequested cfg req = true
  · obtain ⟨j, hj⟩ := hjson hjr
    simp [hjr, hj]
  · rw [Bool.not_eq_true] at hjr
    simp [hjr]

/-- C8: when `ignore_empty_messages` is configured and both templates render
successfully with an empty rendered message, the handler returns HTTP 200
and the chat client is never invoked. -/
theorem c8_empty_message_not_sent (cfg : Config) (tmpls : Templates)
    (client : SendCall → Except String Unit) (req : Request) (room : String)
    (hie : cfg.ignore_empty_messages = true)
    (hauth : authResult cfg req = none) (hjson : jsonStageOk cfg req)
    (hroom : render_template tmpls .room (handlerVars cfg req) = Sum.inl room)
    (hmsg : render_template tmpls .message (handlerVars cfg req) = Sum.inl "") :
    (handle_request cfg tmpls client req).1.status = 200 ∧
    sendHappened (handle_request cfg tmpls client req) = false := by
  rw [handle_request_renders cfg tmpls client req hauth hjson]
  unfold renderAndSend
  rw [hroom, hmsg]
  constructor
  · simp [hie, emptyResponse]
  · cases hjr : jsonRequested cfg req <;> simp [sendHappened, hie, hjr]

/-- C8 witness: scenario D — `ignore_empty_messages` on, message template
`json.text`, body with an empty `text` field: HTTP 200 and no send call. -/
theorem c8_witness :
    (handle_request cfgC8 tmplsC1 clientOk reqC8).1.status = 200 ∧
    sendHappened (handle_request cfgC8 tmplsC1 clientOk reqC8) = false :=
  c8_empty_message_not_sent cfgC8 tmplsC1 clientOk reqC8 "!r:server" rfl rfl
    (fun _ => ⟨Json.obj [("text", Json.str "")], rfl⟩) rfl rfl

/-- C3 counterexample: the token `a:b:c` contains two colons — not "exactly
one `:`" — yet configuration validation accepts it and the plugin starts. -/
theorem c3_counterexample :
    ("a:b:c".data.filter (fun c => c == ':')).length = 2 ∧
    config_validate "plaintext" (some "Basic") (some "a:b:c") = Except.ok () ∧
    start cfgC3 = Except.ok (⟨⟨[Node.text "r"]⟩, ⟨[Node.text "m"]⟩⟩, [("POST", "/h")]) :=
  ⟨by decide, rfl, rfl⟩

/-- C3 amended: with `auth_type = Basic` (after capitalization) and a valid
`message_format`, validation rejects the configuration — and the plugin
refuses to start — exactly when `auth_token` contains *no* colon; any token
with at least one colon (including two or more) is accepted, the first colon
separating user from password at authentication time. -/
theorem c3_basic_token_validation (mf a tok : String) (cfg : Config)
    (hmf : valid_message_formats.contains mf = true)
    (ha : pythonCapitalize a = "Basic") :
    (tok.data.contains ':' = false →
      config_validate mf (some a) (some tok) =
        Except.error ("Invalid auth_token " ++ apos ++ tok ++ apos ++
          " specified! For HTTP basic auth, it must contain a username and a password, " ++
          "separated by a colon (<username>:<password>).")) ∧
    (tok.data.contains ':' = true →
      config_validate mf (some a) (some tok) = Except.ok ()) ∧
    (cfg.message_format = mf → cfg.auth_type = some a → cfg.auth_token = some tok →
      tok.data.contains ':' = false → ∃ e, start cfg = Except.error e) := by
  have hv : valid_auth_types.contains "Basic" = true := by decide
  have key : tok.data.contains ':' = false →
      config_validate mf (some a) (some tok) =
        Except.error ("Invalid auth_token " ++ apos ++ tok ++ apos ++
          " specified! For HTTP basic auth, it must contain a username and a password, " ++
          "separated by a colon (<username>:<password>).") := by
    intro hc
    have hmf2 : mf ∈ valid_message_formats := by simpa using hmf
    have hv2 : "Basic" ∈ valid_auth_types := by simpa using hv
    have hc2 : ':' ∉ tok.data := by simpa using hc
    simp [config_validate, hmf2, ha, hv2, hc2]
  refine ⟨key, ?_, ?_⟩
  · intro hc
    have hmf2 : mf ∈ valid_message_formats := by simpa using hmf
    have hv2 : "Basic" ∈ valid_auth_types := by simpa using hv
    have hc2 : ':' ∈ tok.data := by simpa using hc
    simp [config_validate, hmf2, ha, hv2, hc2]
  · intro h1 h2 h3 hc
    unfold start
    rw [h1, h2, h3, key hc]
    exact ⟨_, rfl⟩

/-- C3 witness: a colon-less Basic token is rejected by validation, while
the two-colon token `x:y:z` is accepted. -/
theorem c3_witness :
    config_validate "plaintext" (some "Basic") (some "abc") =
      Except.error ("Invalid auth_token " ++ apos ++ "abc" ++ apos ++
        " specified! For HTTP basic auth, it must contain a username and a password, " ++
        "separated by a colon (<username>:<password>).") ∧
    config_validate "plaintext" (some "Basic") (some "x:y:z") = Except.ok () :=
  ⟨(c3_basic_token_validation "plaintext" "Basic" "abc" cfgC3 (by decide) (by decide)).1 rfl,
    (c3_basic_token_validation "plaintext" "Basic" "x:y:z" cfgC3 (by decide) (by decide)).2.1
      (by decide)⟩


theorem splitOnceAux_some_of_contains (sep : Char) (l acc : List Char)
    (h : l.contains sep = true) : ∃ a b, splitOnceAux sep acc l = (a, some b) := by
  induction l generalizing acc with
  | nil => simp at h
  | cons c cs ih =>
    by_cases hc : c = sep
    · subst hc
      exact ⟨acc.reverse, cs, by simp [splitOnceAux]⟩
    · have hcs : cs.contains sep = true := by
        simp only [List.contains_cons, Bool.or_eq_true, beq_iff_eq] at h
        rcases h with h | h
        · exact absurd h.symm hc
        · exact h
      obtain ⟨a, b, hab⟩ := ih (c :: acc) hcs
      exact ⟨a, b, by simp [splitOnceAux, hc, hab]⟩

theorem pySplitOnce_some_of_contains (s : String) (sep : Char)
    (h : s.data.contains sep = true) : ∃ a b, pySplitOnce s sep = (a, some b) := by
  obtain ⟨a, b, hab⟩ := splitOnceAux_some_of_contains sep s.data [] h
  exact ⟨⟨a⟩, ⟨b⟩, by simp [pySplitOnce, hab]⟩

theorem append_ne_of_head_ne (s1 s2 t : String) (c1 c2 : Char)
    (h1 : s1.data.head? = some c1) (h2 : s2.data.head? = some c2) (hne : c1 ≠ c2) :
    s1 ++ t ≠ s2 := by
  intro h
  have hd := congrArg String.data h
  rw [String.data_append] at hd
  cases hs1 : s1.data with
  | nil => rw [hs1] at h1; cases h1
  | cons a as =>
    cases hs2 : s2.data with
    | nil => rw [hs2] at h2; cases h2
    | cons b bs =>
      rw [hs1] at h1
      rw [hs2] at h2
      rw [hs1, hs2, List.cons_append] at hd
      simp only [List.head?_cons, Option.some.injEq] at h1 h2
      injection hd with hd1 _
      exact hne (h1 ▸ h2 ▸ hd1)

theorem append_ne_of_longer (s1 s2 t : String) (h : s2.data.length < s1.data.length) :
    s1 ++ t ≠ s2 := by
  intro he
  have hd := congrArg String.data he
  rw [String.data_append] at hd
  have hl := congrArg List.length hd
  rw [List.length_append] at hl
  omega

/-- C2 counterexample: with Bearer auth and configured token `a b`, the
header `Bearer a b` consists of three space-separated tokens, yet it is not
rejected as malformed — it authenticates successfully and the request is
served (HTTP 200), because the header is split only at the first space. -/
theorem c2_counterexample :
    (("Bearer a b".data.splitOn ' ').length = 3 ∧ cfgC2.auth_token = some "a b") ∧
    authResult cfgC2 reqC2 = none ∧
    (handle_request cfgC2 tmplsC1 clientOk reqC2).1.status = 200 :=
  ⟨⟨by decide, rfl⟩, rfl, rfl⟩

/-- C2 amended: with auth configured, a request's `Authorization` header is
rejected as 401 with body "Invalid authorization header format" *exactly*
when it contains no space character (`split(' ', 1)` yields fewer than two
parts): a space-less header always gets that rejection, while a header
containing a space is split at the *first* space only and never yields a
rejection with that body (any rejection it gets — unsupported scheme, Basic
decode failure with its detail suffix, wrong credentials — carries a
different body).  In particular a header with more than two space-separated
tokens is not rejected as malformed, and for a Bearer scheme it even
authenticates when the remainder equals the configured token. -/
theorem c2_auth_header_format (cfg : Config) (tmpls : Templates)
    (client : SendCall → Except String Unit) (req : Request) (a h : String)
    (ha : cfg.auth_type = some a) (hh : req.authorization = some h) :
    (h.data.contains ' ' = false →
      authResult cfg req =
        some (unauthorizedResp (pythonCapitalize a) "Invalid authorization header format") ∧
      handle_request cfg tmpls client req =
        (unauthorizedResp (pythonCapitalize a) "Invalid authorization header format", [])) ∧
    (h.data.contains ' ' = true →
      ∀ r, authResult cfg req = some r → r.text ≠ "Invalid authorization header format") ∧
    (∀ tok, pythonCapitalize a = "Bearer" → cfg.auth_token = some tok →
      h = "Bearer " ++ tok → authResult cfg req = none) := by
  refine ⟨?_, ?_, ?_⟩
  · intro hns
    have hsp : pySplitOnce h ' ' = (h, none) := pySplitOnce_no_sep h ' ' hns
    have hres : authResult cfg req =
        some (unauthorizedResp (pythonCapitalize a) "Invalid authorization header format") := by
      simp [authResult, ha, hh, hsp]
    refine ⟨hres, ?_⟩
    unfold handle_request
    rw [hres]
  · intro hsp r hr htext
    obtain ⟨s1, s2, hsplit⟩ := pySplitOnce_some_of_contains h ' ' hsp
    simp only [authResult, ha, hh, hsplit] at hr
    repeat' split at hr
    all_goals try cases hr
    all_goals first
      | (simp only [unauthorizedResp, internalServerError] at htext
         exact absurd htext (by decide))
      | (simp only [unauthorizedResp] at htext
         exact append_ne_of_head_ne "Unsupported authorization type: "
           "Invalid authorization header format" _ 'U' 'I' rfl rfl (by decide) htext)
      | (simp only [unauthorizedResp] at htext
         exact append_ne_of_longer "Invalid authorization header format: "
           "Invalid authorization header format" _ (by decide) htext)
  · intro tok hcap htok heq
    subst heq
    have hb : ("Bearer" : String).data.contains ' ' = false := by decide
    have hsp : pySplitOnce ("Bearer " ++ tok) ' ' = ("Bearer", some tok) := by
      have heq2 : ("Bearer " ++ tok : String) = "Bearer" ++ String.singleton ' ' ++ tok := rfl
      rw [heq2]
      exact pySplitOnce_with_sep "Bearer" tok ' ' hb
    have hpc : pythonCapitalize "Bearer" = "Bearer" := by decide
    simp [authResult, ha, hh, hsp, hpc, hcap, htok]

/-- C2 witness: the space-less header `Bearer` is rejected as malformed
format; the space-containing header `Bearer wrong` is rejected with a
*different* body ("Invalid authorization token", not the malformed-format
body); and the three-token header `Bearer a b` passes authentication
against the configured token `a b`. -/
theorem c2_witness :
    handle_request cfgC5 tmplsC1 clientOk reqC2w =
      (unauthorizedResp (pythonCapitalize "Bearer") "Invalid authorization header format", []) ∧
    (unauthorizedResp (pythonCapitalize "Bearer") "Invalid authorization token").text ≠
      "Invalid authorization header format" ∧
    authResult cfgC2 reqC2 = none :=
  ⟨((c2_auth_header_format cfgC5 tmplsC1 clientOk reqC2w "Bearer" "Bearer" rfl rfl).1
      (by decide)).2,
    (c2_auth_header_format cfgC5 tmplsC1 clientOk reqC5a "Bearer" "Bearer wrong" rfl rfl).2.1
      (by decide) (unauthorizedResp (pythonCapitalize "Bearer") "Invalid authorization token")
      rfl,
    (c2_auth_header_format cfgC2 tmplsC1 clientOk reqC2 "Bearer" "Bearer a b" rfl rfl).2.2
      "a b" (by decide) rfl rfl⟩

theorem renderAndSend_any_eq (cfg : Config) (tmpls : Templates)
    (client : SendCall → Except String Unit) (vars : Vars) (evts : List Event)
    (p : Event → Bool) (hr : ∀ k, p (Event.renderAttempt k) = false)
    (hs : ∀ c, p (Event.sendAttempt c) = false) :
    (renderAndSend cfg tmpls client vars evts).2.any p = evts.any p := by
  unfold renderAndSend
  repeat' split
  all_goals simp only [List.any_append, List.any_cons, List.any_nil, hr, hs, Bool.or_false]

/-- C6 counterexample: a request with content type `application/json` (and a
malformed body) that fails authentication is rejected with 401 before any
JSON parse is attempted — so "parsing is attempted iff the content type is
`application/json` or `forceJson` is configured" does not hold of every
request. -/
theorem c6_counterexample :
    reqC6.content_type = "application/json" ∧
    jsonAttempted (handle_request cfgC5 tmplsC1 clientOk reqC6) = false ∧
    (handle_request cfgC5 tmplsC1 clientOk reqC6).1.status = 401 :=
  ⟨rfl, rfl, rfl⟩

/-- C6 amended: for every request that passes (or is exempt from)
authentication, the body is parsed as JSON if and only if the request
content type is `application/json` or `force_json` is configured; when the
parse is attempted on a malformed body the response is exactly HTTP 400 with
body "Failed to parse JSON: <detail>", the parse attempt being the only
effect — rendering is not reached. -/
theorem c6_json_iff_content_type (cfg : Config) (tmpls : Templates)
    (client : SendCall → Except String Unit) (req : Request)
    (hauth : authResult cfg req = none) :
    jsonAttempted (handle_request cfg tmpls client req) = jsonRequested cfg req ∧
    (∀ e, req.bodyJson = Except.error e → jsonRequested cfg req = true →
      handle_request cfg tmpls client req =
        ({ status := 400, text := "Failed to parse JSON: " ++ e }, [Event.jsonParseAttempt])) := by
  constructor
  · unfold handle_request jsonAttempted
    rw [hauth]
    by_cases hjr : jsonRequested cfg req = true
    · rw [hjr]
      simp only [hjr, if_true]
      cases hbj : req.bodyJson with
      | error e => simp
      | ok j =>
        rw [renderAndSend_any_eq cfg tmpls client _ _ _ (fun k => rfl) (fun c => rfl)]
        simp
    · rw [Bool.not_eq_true] at hjr
      rw [hjr]
      simp only [hjr, Bool.false_eq_true, if_false]
      rw [renderAndSend_any_eq cfg tmpls client _ _ _ (fun k => rfl) (fun c => rfl)]
      simp
  · intro e he hq
    unfold handle_request
    rw [hauth, if_pos hq, he]

/-- C6 witness: without auth and with `force_json`, the parse is attempted
on a well-formed body (and equals the requested flag), and a malformed body
yields exactly the 400 parse-failure response. -/
theorem c6_witness :
    jsonAttempted (handle_request cfgC6w tmplsC1 clientOk reqC1) = jsonRequested cfgC6w reqC1 ∧
    handle_request cfgC6w tmplsC1 clientOk reqC5b =
      ({ status := 400, text := "Failed to parse JSON: " ++ "boom" }, [Event.jsonParseAttempt]) :=
  ⟨(c6_json_iff_content_type cfgC6w tmplsC1 clientOk reqC1 rfl).1,
    (c6_json_iff_content_type cfgC6w tmplsC1 clientOk reqC5b rfl).2 "boom" rfl rfl⟩

theorem renderNodes_error_iff (vars : Vars) (ns : List Node) :
    (∃ e, renderNodes vars ns = Except.error e) ↔
      ∃ n f, Node.attrRef n f ∈ ns ∧ varsLookup vars n = none := by
  induction ns with
  | nil => simp [renderNodes]
  | cons nd rest ih =>
    constructor
    · rintro ⟨e, he⟩
      unfold renderNodes at he
      cases hn : renderNode vars nd with
      | error e1 =>
        cases nd with
        | text s => simp [renderNode] at hn
        | varRef n => simp [renderNode] at hn
        | attrRef n f =>
          rcases hl : varsLookup vars n with _ | v
          · exact ⟨n, f, List.mem_cons_self _ _, hl⟩
          · simp [renderNode, hl] at hn
      | ok s =>
        rw [hn] at he
        cases hr : renderNodes vars rest with
        | error e2 =>
          obtain ⟨n, f, hmem, hlk⟩ := ih.mp ⟨e2, hr⟩
          exact ⟨n, f, List.mem_cons_of_mem _ hmem, hlk⟩
        | ok s2 =>
          rw [hr] at he
          cases he
    · rintro ⟨n, f, hmem, hlk⟩
      rcases List.mem_cons.mp hmem with heq | hmem2
      · subst heq
        refine ⟨apos ++ n ++ apos ++ " is undefined", ?_⟩
        unfold renderNodes
        simp [renderNode, hlk]
      · obtain ⟨e, he⟩ := ih.mpr ⟨n, f, hmem2, hlk⟩
        unfold renderNodes
        cases hn : renderNode vars nd with
        | error e1 => exact ⟨e1, rfl⟩
        | ok s => exact ⟨e, by rw [he]⟩

/-- C1 counterexample: with `force_json` on and message template
`json.text`, the body `\x7b\x7d` parses to an empty JSON object, so the
template references a field absent from the parsed JSON — yet rendering
succeeds (as the empty string, per jinja2's default `Undefined`), the
handler returns HTTP 200, not 500, and the (empty) message *is*
delivered. -/
theorem c1_counterexample :
    tmplsC1.message.nodes = [Node.attrRef "json" "text"] ∧
    reqC1.bodyJson = Except.ok (Json.obj []) ∧
    render_template tmplsC1 .message (handlerVars cfgC1 reqC1) = Sum.inl "" ∧
    (handle_request cfgC1 tmplsC1 clientOk reqC1).1.status = 200 ∧
    sendHappened (handle_request cfgC1 tmplsC1 clientOk reqC1) = true :=
  ⟨rfl, rfl, rfl, rfl, rfl⟩

/-- C1 amended: rendering fails exactly when a template performs an
attribute access on a *top-level* variable absent from the namespace (for
example `json.text` when no JSON was parsed at all — not when the parsed
JSON merely lacks the field, which renders as the empty string).  When the
room or message template fails this way, the handler returns HTTP 500 with
a body naming the failing field and the undefined variable, and no message
is delivered. -/
theorem c1_undefined_render_500 (cfg : Config) (tmpls : Templates)
    (client : SendCall → Except String Unit) (req : Request) :
    (∀ (t : Template) (vars : Vars),
      (∃ e, jinjaRender t vars = Except.error e) ↔
        ∃ n f, Node.attrRef n f ∈ t.nodes ∧ varsLookup vars n = none) ∧
    (authResult cfg req = none → jsonStageOk cfg req →
      (∀ e, jinjaRender (tmpls.get .room) (handlerVars cfg req) = Except.error e →
        (handle_request cfg tmpls client req).1 =
          { status := 500, text := "Undefined variables in room template: " ++ e } ∧
        sendHappened (handle_request cfg tmpls client req) = false) ∧
      (∀ s e, render_template tmpls .room (handlerVars cfg req) = Sum.inl s →
        jinjaRender (tmpls.get .message) (handlerVars cfg req) = Except.error e →
        (handle_request cfg tmpls client req).1 =
          { status := 500, text := "Undefined variables in message template: " ++ e } ∧
        sendHappened (handle_request cfg tmpls client req) = false)) := by
  refine ⟨fun t vars => renderNodes_error_iff vars t.nodes, ?_⟩
  intro hauth hjson
  have hrw := handle_request_renders cfg tmpls client req hauth hjson
  constructor
  · intro e he
    have hrt : render_template tmpls .room (handlerVars cfg req) =
        Sum.inr { status := 500, text := "Undefined variables in room template: " ++ e } := by
      unfold render_template
      rw [he]
      rfl
    rw [hrw]
    unfold renderAndSend
    rw [hrt]
    refine ⟨rfl, ?_⟩
    cases hjr : jsonRequested cfg req <;> simp [sendHappened, hjr]
  · intro s e hs he
    have hmt : render_template tmpls .message (handlerVars cfg req) =
        Sum.inr { status := 500, text := "Undefined variables in message template: " ++ e } := by
      unfold render_template
      rw [he]
      rfl
    rw [hrw]
    unfold renderAndSend
    rw [hs, hmt]
    refine ⟨rfl, ?_⟩
    cases hjr : jsonRequested cfg req <;> simp [sendHappened, hjr]

/-- C1 witness: without JSON parsing, the message template `json.text` hits
an undefined top-level `json` variable: HTTP 500 naming the message template
and the variable, and nothing is sent. -/
theorem c1_witness :
    (handle_request cfgC1w tmplsC1 clientOk reqC1w).1 =
      { status := 500,
        text := "Undefined variables in message template: " ++
          (apos ++ "json" ++ apos ++ " is undefined") } ∧
    sendHappened (handle_request cfgC1w tmplsC1 clientOk reqC1w) = false :=
  ((c1_undefined_render_500 cfgC1w tmplsC1 clientOk reqC1w).2 rfl
      (fun h => absurd h (by decide))).2 "!r:server"
    (apos ++ "json" ++ apos ++ " is undefined") rfl rfl
